import Mathlib

/-!
Verification of the research-agent core (CLI and GUI front ends).

Python strings are modelled as `List Char` (one entry per code point);
Python dicts keyed by strings are modelled as association lists built by
insert-with-overwrite, matching dict insertion semantics.  External
libraries (the provider SDKs, `fitz`, Python's `json` module) are modelled
at their observable boundary: an SDK call is an `Except`-valued oracle
(exception message or response object), and `json.loads` is an executable
recursive-descent parser over the JSON fragment the program exchanges
(null, booleans, integers, strings with the standard single-character
escapes, arrays, objects); floats, `\u` escapes and the leading-zero
restriction are outside the modelled fragment.
-/

namespace RA

/-- JSON values as produced by `json.loads` (restricted to the fragment
described in the file header; numbers are integers). -/
inductive Json where
  | null : Json
  | bool (b : Bool) : Json
  | num (n : Int) : Json
  | str (s : String) : Json
  | arr (elems : List Json) : Json
  | obj (fields : List (String × Json)) : Json

/-- Insert-with-overwrite into an association list: the model of
`d[k] = v` on a Python dict (existing key keeps its position, value is
replaced; new key goes to the end). -/
def dinsert {α : Type} (d : List (String × α)) (k : String) (v : α) : List (String × α) :=
  if d.any (fun kv => kv.1 = k) then
    d.map (fun kv => if kv.1 = k then (k, v) else kv)
  else
    d ++ [(k, v)]

/-- Build a Python dict from a list of key-value pairs inserted in order. -/
def buildDict {α : Type} (items : List (String × α)) : List (String × α) :=
  items.foldl (fun d kv => dinsert d kv.1 kv.2) []

/-- JSON whitespace characters accepted by `json.loads`. -/
def isJsonWs (c : Char) : Bool :=
  c = ' ' || c = '\t' || c = '\n' || c = '\r'

/-- Drop leading JSON whitespace. -/
def skipWs : List Char → List Char
  | [] => []
  | c :: rest => if isJsonWs c then skipWs rest else c :: rest

/-- Translate a JSON string escape character (the character after a
backslash) to the character it denotes.  `\u` escapes are outside the
modelled fragment and are rejected. -/
def escChar (e : Char) : Option Char :=
  if e = '"' then some '"'
  else if e = '\\' then some '\\'
  else if e = '/' then some '/'
  else if e = 'b' then some (Char.ofNat 8)
  else if e = 'f' then some (Char.ofNat 12)
  else if e = 'n' then some '\n'
  else if e = 'r' then some '\r'
  else if e = 't' then some '\t'
  else none

/-- Parse the body of a JSON string (the opening quote already consumed);
returns the decoded characters and the remaining input.  Raw control
characters are rejected, as in `json.loads` strict mode. -/
def parseStringBody : List Char → Option (List Char × List Char)
  | [] => none
  | c :: rest =>
    if c = '"' then some ([], rest)
    else if c = '\\' then
      match rest with
      | [] => none
      | e :: rest2 =>
        match escChar e with
        | some ch =>
          match parseStringBody rest2 with
          | some (s, r) => some (ch :: s, r)
          | none => none
        | none => none
    else if c.toNat < 32 then none
    else
      match parseStringBody rest with
      | some (s, r) => some (c :: s, r)
      | none => none

/-- Parse a run of decimal digits into a natural number. -/
def parseNatNum (cs : List Char) : Option (Nat × List Char) :=
  let digits := cs.takeWhile (fun c => c.isDigit)
  if digits.isEmpty then none
  else some (digits.foldl (fun acc c => acc * 10 + (c.toNat - 48)) 0,
             cs.dropWhile (fun c => c.isDigit))

/-- Opening brace character. -/
def braceOpen : Char := Char.ofNat 123

/-- Closing brace character. -/
def braceClose : Char := Char.ofNat 125

mutual

/-- Parse one JSON value (fuel-bounded recursive descent modelling
`json.loads`); returns the value and the remaining input. -/
def parseValue : Nat → List Char → Option (Json × List Char)
  | 0, _ => none
  | fuel + 1, cs =>
    match skipWs cs with
    | [] => none
    | c :: rest =>
      if c = '[' then
        match skipWs rest with
        | ']' :: rest2 => some (.arr [], rest2)
        | _ =>
          match parseElems fuel rest with
          | some (xs, rest2) => some (.arr xs, rest2)
          | none => none
      else if c = braceOpen then
        match skipWs rest with
        | d :: rest2 =>
          if d = braceClose then some (.obj [], rest2)
          else
            match parseMembers fuel rest with
            | some (kvs, rest3) => some (.obj (buildDict kvs), rest3)
            | none => none
        | [] => none
      else if c = '"' then
        match parseStringBody rest with
        | some (s, rest2) => some (.str (String.mk s), rest2)
        | none => none
      else if c = 't' then
        if rest.take 3 = ['r', 'u', 'e'] then some (.bool true, rest.drop 3) else none
      else if c = 'f' then
        if rest.take 4 = ['a', 'l', 's', 'e'] then some (.bool false, rest.drop 4) else none
      else if c = 'n' then
        if rest.take 3 = ['u', 'l', 'l'] then some (.null, rest.drop 3) else none
      else if c = '-' then
        match parseNatNum rest with
        | some (n, rest2) => some (.num (-(n : Int)), rest2)
        | none => none
      else
        match parseNatNum (c :: rest) with
        | some (n, rest2) => some (.num (n : Int), rest2)
        | none => none

/-- Parse the elements of a non-empty JSON array (opening bracket already
consumed), up to and including the closing bracket. -/
def parseElems : Nat → List Char → Option (List Json × List Char)
  | 0, _ => none
  | fuel + 1, cs =>
    match parseValue fuel cs with
    | some (v, rest) =>
      match skipWs rest with
      | ',' :: rest2 =>
        match parseElems fuel rest2 with
        | some (vs, rest3) => some (v :: vs, rest3)
        | none => none
      | ']' :: rest2 => some ([v], rest2)
      | _ => none
    | none => none

/-- Parse the members of a non-empty JSON object (opening brace already
consumed), up to and including the closing brace. -/
def parseMembers : Nat → List Char → Option (List (String × Json) × List Char)
  | 0, _ => none
  | fuel + 1, cs =>
    match skipWs cs with
    | '"' :: rest =>
      match parseStringBody rest with
      | some (k, rest2) =>
        match skipWs rest2 with
        | ':' :: rest3 =>
          match parseValue fuel rest3 with
          | some (v, rest4) =>
            match skipWs rest4 with
            | ',' :: rest5 =>
              match parseMembers fuel rest5 with
              | some (kvs, rest6) => some ((String.mk k, v) :: kvs, rest6)
              | none => none
            | d :: rest5 =>
              if d = braceClose then some ([(String.mk k, v)], rest5) else none
            | [] => none
          | none => none
        | _ => none
      | none => none
    | _ => none

end

/-- Model of Python's `json.loads`: parse one value and require only
whitespace to remain; any failure (including trailing text) is a
`JSONDecodeError`, modelled as `none`. -/
def jsonLoads (cs : List Char) : Option Json :=
  match parseValue (2 * cs.length + 8) cs with
  | some (v, rest) => if skipWs rest = [] then some v else none
  | none => none

/-! Model of `re.search(r'\[[\s\S]*\]', result)`.  The regex engine tries
each start position from the left; at a position holding `'['` the greedy
`[\s\S]*` extends to the end of the input and backtracks to the last
`']'`, so a match at that position runs to the last `']'` of the rest of
the input. -/

/-- Index of the last `']'` in the input, if any. -/
def lastClose? : List Char → Option Nat
  | [] => none
  | c :: rest =>
    match lastClose? rest with
    | some j => some (j + 1)
    | none => if c = ']' then some 0 else none

/-- Index of the first `'['` in the input, if any. -/
def firstOpen? : List Char → Option Nat
  | [] => none
  | c :: rest => if c = '[' then some 0 else (firstOpen? rest).map (· + 1)

/-- Attempt to match `\[[\s\S]*\]` at the start of the input: the head
must be `'['` and the greedy tail runs to the last `']'` of the rest. -/
def matchAt (cs : List Char) : Option (List Char) :=
  match cs with
  | [] => none
  | c :: rest =>
    if c = '[' then
      match lastClose? rest with
      | some j => some ('[' :: rest.take (j + 1))
      | none => none
    else none

/-- Model of `re.search(r'\[[\s\S]*\]', ·)`: try `matchAt` at each start
position from the left and return the first (leftmost) match, i.e. the
`match.group()` the program goes on to parse. -/
def reSearch : List Char → Option (List Char)
  | [] => none
  | c :: rest =>
    match matchAt (c :: rest) with
    | some m => some m
    | none => reSearch rest

/-- Stated from the spec and claim C10: the candidate span is the
substring from the first `'['` of the entire reply to the last `']'` of
the entire reply (inclusive), when the first `'['` lies before the last
`']'`; otherwise there is no span. -/
def spanFirstOpenToLastClose (cs : List Char) : Option (List Char) :=
  match firstOpen? cs, lastClose? cs with
  | some i, some j => if i < j then some ((cs.drop i).take (j + 1 - i)) else none
  | _, _ => none

/-! ResponseInterpreter: structured extraction from a raw model reply.
CLI source: `main`, the `find` command branch (research_agent_cli.py,
lines 184-204).  GUI source: `ResearchAgentGUI.find_papers` (search
worker body, research_agent_gui.py, lines 547-556) and
`ResearchAgentGUI.format_papers` (lines 562-590). -/

/-- Model of Python's `p.get(k, dflt)` on a parsed JSON object (the
program only calls it on dicts produced by `json.loads`). -/
def jget (p : Json) (k : String) (dflt : Json) : Json :=
  match p with
  | .obj kvs =>
    match kvs.find? (fun kv => kv.1 = k) with
    | some kv => kv.2
    | none => dflt
  | _ => dflt

/-- Whether a parsed JSON object carries the key `k` (`k in p`). -/
def hasKey (p : Json) (k : String) : Bool :=
  match p with
  | .obj kvs => kvs.any (fun kv => kv.1 = k)
  | _ => false

/-- Per-record field extraction in the CLI display loop: each field read
with `p.get` and the default written in the source (title `'Unknown'`,
authors `[]`, year `'?'`, summary, relevance and link `''`). -/
structure DisplayPaper where
  title : Json
  authors : Json
  year : Json
  summary : Json
  relevance : Json
  link : Json

/-- Field reads of one paper record in the CLI `find` display loop
(research_agent_cli.py, lines 190-198). -/
def displayPaperCLI (p : Json) : DisplayPaper :=
  { title := jget p "title" (.str "Unknown")
    authors := jget p "authors" (.arr [])
    year := jget p "year" (.str "?")
    summary := jget p "summary" (.str "")
    relevance := jget p "relevance" (.str "")
    link := jget p "link" (.str "") }

/-- Per-record field extraction in `format_papers` (research_agent_gui.py,
lines 570-587): defaults are `'Unknown'` for title and year, `'N/A'` for
summary and relevance, `[]` for authors, and `None` (absent) for journal
and link, which are only printed when truthy. -/
structure DisplayPaperGUI where
  title : Json
  authors : Json
  year : Json
  journal : Json
  summary : Json
  relevance : Json
  link : Json

/-- Field reads of one paper record in `format_papers`. -/
def displayPaperGUI (p : Json) : DisplayPaperGUI :=
  { title := jget p "title" (.str "Unknown")
    authors := jget p "authors" (.arr [])
    year := jget p "year" (.str "Unknown")
    journal := jget p "journal" .null
    summary := jget p "summary" (.str "N/A")
    relevance := jget p "relevance" (.str "N/A")
    link := jget p "link" .null }

/-- Outcome of the CLI `find` branch after the chat reply comes back:
either the parsed JSON value is rendered as paper panels, or the raw
reply string is printed untouched. -/
inductive InterpOutcome where
  | parsed (papers : Json)
  | raw (text : List Char)

/-- CLI interpretation of a raw reply (research_agent_cli.py, lines
184-204): regex-extract a bracket span, `json.loads` it, and on any
failure (`no match`, or `JSONDecodeError`) print the raw reply
unchanged. -/
def interpretReplyCLI (result : List Char) : InterpOutcome :=
  match reSearch result with
  | some span =>
    match jsonLoads span with
    | some papers => .parsed papers
    | none => .raw result
  | none => .raw result

/-- Displayed text of the GUI search worker (research_agent_gui.py, lines
547-556): on a successful parse the result is `format_papers(papers)`
(carried structurally as `formatted`); a `JSONDecodeError` escapes to the
worker's `except` handler, displaying `"Error: " + str(e)` (the decoder
message is the `parseErrMsg` argument); with no regex match the display
is the raw response behind a `"Could not parse results."` banner. -/
inductive GuiFindDisplay where
  | formatted (papers : Json)
  | text (s : List Char)

/-- GUI search-result interpretation (research_agent_gui.py, lines
547-556). -/
def findPapersResultGUI (response : List Char) (parseErrMsg : List Char) : GuiFindDisplay :=
  match reSearch response with
  | some span =>
    match jsonLoads span with
    | some papers => .formatted papers
    | none => .text ("Error: ".data ++ parseErrMsg)
  | none => .text ("Could not parse results. Raw response:\n\n".data ++ response)

/-! ProviderClient: the `AIClient` class of each front end.  The SDK
constructors and network calls are external; a constructor outcome is an
`Except String Backend` (exception message or handle) and a chat call is
an oracle from the request actually sent to an `Except`-valued response,
so the embedding records exactly which request a chat invocation passes
to the SDK. -/

/-- An SDK backend handle (`anthropic.Anthropic(...)` or
`openai.OpenAI(...)`). -/
inductive Backend where
  | anthropic : Backend
  | openai : Backend
deriving DecidableEq

/-- One chat message (`{"role": ..., "content": ...}`). -/
structure Message where
  role : String
  content : String
deriving DecidableEq

/-- Request shape sent to the Anthropic SDK: fixed model, fixed
`max_tokens`, the message list, and the web-search tool attached exactly
when `use_web` is set (both front ends build it identically:
research_agent_cli.py lines 67-70, research_agent_gui.py lines 100-111). -/
structure ClaudeRequest where
  model : String
  max_tokens : Nat
  messages : List Message
  webSearchTool : Bool
deriving DecidableEq

/-- Build the Claude request (`kwargs` of `messages.create`). -/
def claudeRequest (messages : List Message) (useWeb : Bool) : ClaudeRequest :=
  { model := "claude-sonnet-4-20250514"
    max_tokens := 4096
    messages := messages
    webSearchTool := useWeb }

/-- Request shape sent to the OpenAI SDK (`chat.completions.create`). -/
structure GptRequest where
  model : String
  max_tokens : Nat
  messages : List Message
deriving DecidableEq

/-- GUI `_chatgpt_chat` request (research_agent_gui.py, lines 121-138):
the model is `gpt-4o` when web-search behaviour was requested and
`gpt-4o-mini` otherwise; `max_tokens` is 4096. -/
def gptRequestGUI (messages : List Message) (useWebSearch : Bool) : GptRequest :=
  { model := if useWebSearch then "gpt-4o" else "gpt-4o-mini"
    max_tokens := 4096
    messages := messages }

/-- CLI chatgpt request (research_agent_cli.py, lines 73-75): the model
is always `gpt-4o`; the `use_web` flag is not consulted. -/
def gptRequestCLI (messages : List Message) : GptRequest :=
  { model := "gpt-4o"
    max_tokens := 4096
    messages := messages }

/-- GUI `_chatgpt_chat` message reformatting (research_agent_gui.py,
lines 124-129): rebuilds each message from its `role` and `content`. -/
def formatMessages (messages : List Message) : List Message :=
  messages.map (fun m => { role := m.role, content := m.content })

/-- A content block of an Anthropic response; `text` is `some` exactly
when the block has a `text` attribute. -/
structure ClaudeBlock where
  text : Option String

/-- An Anthropic response: a list of content blocks. -/
structure ClaudeResponse where
  content : List ClaudeBlock

/-- Reply extraction for Claude (identical in both front ends): the
concatenation of every text-bearing block, in order. -/
def claudeExtract (r : ClaudeResponse) : String :=
  (r.content.filterMap (fun b => b.text)).foldl (· ++ ·) ""

/-- A message inside an OpenAI response choice. -/
structure GptMessage where
  content : String

/-- One choice of an OpenAI response. -/
structure GptChoice where
  message : GptMessage

/-- An OpenAI response: a list of choices; the code reads
`choices[0].message.content`. -/
structure GptResponse where
  choices : List GptChoice

/-- GUI `AIClient` object state: provider tag (lowercased), credential,
and the backend handle if one was constructed. -/
structure AIClient where
  provider : String
  api_key : String
  client : Option Backend

/-- Model of `AIClient._initialize_client` (research_agent_gui.py, lines
61-73): an empty key returns early; for a known provider the SDK
constructor either yields a handle or raises, and the `except` branch
clears the handle; an unknown provider leaves the handle untouched. -/
def initClient (c : AIClient) (ctor : Except String Backend) : AIClient :=
  if c.api_key = "" then c
  else if c.provider = "claude" then
    match ctor with
    | .ok b => { c with client := some b }
    | .error _ => { c with client := none }
  else if c.provider = "chatgpt" then
    match ctor with
    | .ok b => { c with client := some b }
    | .error _ => { c with client := none }
  else c

/-- Model of Python's `str.lower()` (the provider tags are ASCII). -/
def pyLower (s : String) : String :=
  String.mk (s.data.map Char.toLower)

/-- Model of `AIClient.__init__` (research_agent_gui.py, lines 55-59):
the handle starts as `None`, then `_initialize_client` runs. -/
def AIClient.make (provider api_key : String) (ctor : Except String Backend) : AIClient :=
  initClient { provider := pyLower provider, api_key := api_key, client := none } ctor

/-- Model of `AIClient.set_provider` (research_agent_gui.py, lines
75-79): replace provider and key, keep the current handle, re-run
`_initialize_client`. -/
def AIClient.set_provider (c : AIClient) (provider api_key : String)
    (ctor : Except String Backend) : AIClient :=
  initClient { c with provider := pyLower provider, api_key := api_key } ctor

/-- Model of `AIClient.is_ready` (research_agent_gui.py, lines 81-83). -/
def AIClient.is_ready (c : AIClient) : Bool :=
  c.client.isSome

/-- Model of GUI `AIClient.chat` (research_agent_gui.py, lines 85-98):
guard on readiness, dispatch on the provider tag, catch any exception
from the SDK call (`Except.error`) and also the `IndexError` raised by
`choices[0]` on an empty choice list, and return the pair of reply text
and the (unmodified) client state. -/
def AIClient.chat (c : AIClient) (messages : List Message) (useWebSearch : Bool)
    (claudeCall : ClaudeRequest → Except String ClaudeResponse)
    (gptCall : GptRequest → Except String GptResponse) : String × AIClient :=
  if c.is_ready = false then
    ("Error: API client not initialized. Please check your API key.", c)
  else if c.provider = "claude" then
    match claudeCall (claudeRequest messages useWebSearch) with
    | .ok r => (claudeExtract r, c)
    | .error e => ("Error: " ++ e, c)
  else if c.provider = "chatgpt" then
    match gptCall (gptRequestGUI (formatMessages messages) useWebSearch) with
    | .ok r =>
      match r.choices with
      | [] => ("Error: list index out of range", c)
      | ch :: _ => (ch.message.content, c)
    | .error e => ("Error: " ++ e, c)
  else
    ("Error: Unknown provider " ++ c.provider, c)

/-- CLI `AIClient` object state (research_agent_cli.py, lines 53-61):
provider tag and credential; the backend handle is always constructed
(no readiness tracking). -/
structure AIClientCLI where
  provider : String
  api_key : String

/-- Model of CLI `AIClient.chat` (research_agent_cli.py, lines 63-78):
build the single-turn message list from the prompt, dispatch (`claude`
versus everything else), catch any exception and return an in-band
`"Error: ..."` string; the chatgpt branch ignores `use_web`. -/
def chatCLI (c : AIClientCLI) (prompt : String) (useWeb : Bool)
    (claudeCall : ClaudeRequest → Except String ClaudeResponse)
    (gptCall : GptRequest → Except String GptResponse) : String × AIClientCLI :=
  let messages : List Message := [{ role := "user", content := prompt }]
  if c.provider = "claude" then
    match claudeCall (claudeRequest messages useWeb) with
    | .ok r => (claudeExtract r, c)
    | .error e => ("Error: " ++ e, c)
  else
    match gptCall (gptRequestCLI messages) with
    | .ok r =>
      match r.choices with
      | [] => ("Error: list index out of range", c)
      | ch :: _ => (ch.message.content, c)
    | .error e => ("Error: " ++ e, c)

/-! PromptAssembler: per-document truncation and document wrapping for
the analyze and verify tasks. -/

/-- Marker appended by the CLI analyze branch (research_agent_cli.py,
line 220): a newline followed by `...[truncated]`. -/
def cliTruncMarker : List Char := "\n...[truncated]".data

/-- Marker appended by the GUI analyze and verify branches
(research_agent_gui.py, lines 622 and 677): a newline followed by
`... [truncated]` (with a space). -/
def guiTruncMarker : List Char := "\n... [truncated]".data

/-- CLI analyze truncation (research_agent_cli.py, lines 219-220):
texts over 40000 characters are cut at 40000 and the marker is
appended. -/
def truncAnalyzeCLI (text : List Char) : List Char :=
  if 40000 < text.length then text.take 40000 ++ cliTruncMarker else text

/-- CLI verify truncation (research_agent_cli.py, lines 254-255): cut at
40000 characters with no marker. -/
def truncVerifyCLI (text : List Char) : List Char :=
  if 40000 < text.length then text.take 40000 else text

/-- GUI analyze truncation (research_agent_gui.py, lines 621-622): cut
at 50000 characters with the GUI marker appended. -/
def truncAnalyzeGUI (text : List Char) : List Char :=
  if 50000 < text.length then text.take 50000 ++ guiTruncMarker else text

/-- GUI verify truncation (research_agent_gui.py, lines 676-677):
identical to the GUI analyze truncation. -/
def truncVerifyGUI (text : List Char) : List Char :=
  if 50000 < text.length then text.take 50000 ++ guiTruncMarker else text

/-- One loaded document as the prompt assembler sees it: the display
filename and the extracted text. -/
structure LoadedDoc where
  filename : List Char
  text : List Char
deriving DecidableEq

/-- Document wrapper used by every analyze/verify branch:
`=== {filename} ===\n{text}\n=== END ===`. -/
def wrapDoc (filename text : List Char) : List Char :=
  "=== ".data ++ filename ++ " ===\n".data ++ text ++ "\n=== END ===".data

/-- CLI analyze per-document texts (research_agent_cli.py, lines
216-221): only the first 10 loaded documents, each truncated and
wrapped. -/
def analyzePapersTextsCLI (docs : List LoadedDoc) : List (List Char) :=
  (docs.take 10).map (fun d => wrapDoc d.filename (truncAnalyzeCLI d.text))

/-- CLI verify per-document texts (research_agent_cli.py, lines
251-256): every loaded document, truncated (no marker) and wrapped. -/
def verifyPapersTextsCLI (docs : List LoadedDoc) : List (List Char) :=
  docs.map (fun d => wrapDoc d.filename (truncVerifyCLI d.text))

/-- GUI analyze per-document texts (research_agent_gui.py, lines
617-623): only the first 10 loaded documents, each truncated and
wrapped. -/
def analyzePapersTextsGUI (docs : List LoadedDoc) : List (List Char) :=
  (docs.take 10).map (fun d => wrapDoc d.filename (truncAnalyzeGUI d.text))

/-- GUI verify per-document texts (research_agent_gui.py, lines
672-678): every loaded document, truncated and wrapped. -/
def verifyPapersTextsGUI (docs : List LoadedDoc) : List (List Char) :=
  docs.map (fun d => wrapDoc d.filename (truncVerifyGUI d.text))

/-- Join a list of strings with a separator (`sep.join(parts)`). -/
def joinSep (sep : List Char) : List (List Char) → List Char
  | [] => []
  | [x] => x
  | x :: y :: rest => x ++ sep ++ joinSep sep (y :: rest)

/-- CLI analyze prompt (research_agent_cli.py, lines 223-229):
newline-joined wrapped documents, the question, and the citation
instruction. -/
def analyzePromptCLI (docs : List LoadedDoc) (question : List Char) : List Char :=
  "Analyze these papers:\n\n".data ++ joinSep "\n".data (analyzePapersTextsCLI docs)
    ++ "\n\nQuestion: ".data ++ question
    ++ "\n\nProvide a detailed answer citing specific papers.".data

/-- CLI verify prompt (research_agent_cli.py, lines 258-269). -/
def verifyPromptCLI (docs : List LoadedDoc) (paragraph : List Char) : List Char :=
  "Verify if these papers support the claims in this paragraph:\n\nPAPERS:\n".data
    ++ joinSep "\n".data (verifyPapersTextsCLI docs)
    ++ "\n\nPARAGRAPH:\n".data ++ paragraph
    ++ "\n\nProvide:\n1. Overall verdict (SUPPORTED/PARTIALLY SUPPORTED/NOT SUPPORTED)\n2. Claim-by-claim analysis\n3. Recommendations".data

/-- GUI analyze prompt (research_agent_gui.py, lines 625-633): the
wrapped documents are joined with a blank line. -/
def analyzePromptGUI (docs : List LoadedDoc) (question : List Char) : List Char :=
  "Analyze these papers:\n\n".data ++ joinSep "\n\n".data (analyzePapersTextsGUI docs)
    ++ "\n\nQuestion: ".data ++ question
    ++ "\n\nProvide a detailed answer citing specific papers and quotes.".data

/-- GUI verify prompt (research_agent_gui.py, lines 680-695). -/
def verifyPromptGUI (docs : List LoadedDoc) (paragraph task : List Char) : List Char :=
  "Verify citations in this paragraph:\n\nPAPERS:\n".data
    ++ joinSep "\n\n".data (verifyPapersTextsGUI docs)
    ++ "\n\nPARAGRAPH:\n".data ++ paragraph
    ++ "\n\nTASK: ".data ++ task
    ++ "\n\nProvide:\n1. Overall verdict (SUPPORTED/PARTIALLY SUPPORTED/NOT SUPPORTED)\n2. Claim-by-claim analysis with evidence\n3. Recommendations".data

/-! DocumentStore: folder scanning, text extraction and metadata.
`fitz.open` is external; each discovered PDF file carries the outcome of
opening it (`Except`: exception message, or the raw document with its
metadata and page texts). -/

/-- A raw PDF document as `fitz` yields it: best-effort metadata and the
per-page extracted texts. -/
structure RawPdf where
  metaTitle : Option String
  metaAuthor : Option String
  pages : List (List Char)
deriving DecidableEq

instance {ε α : Type} [DecidableEq ε] [DecidableEq α] : DecidableEq (Except ε α)
  | .ok a, .ok b => decidable_of_iff (a = b) (by simp)
  | .error a, .error b => decidable_of_iff (a = b) (by simp)
  | .ok _, .error _ => isFalse (fun h => Except.noConfusion h)
  | .error _, .ok _ => isFalse (fun h => Except.noConfusion h)

/-- A PDF file discovered by the recursive glob: its path and the
outcome of `fitz.open`. -/
structure PdfFile where
  path : String
  openResult : Except String RawPdf
deriving DecidableEq

/-- Whether opening and extracting this file succeeds. -/
def extractOk (f : PdfFile) : Bool :=
  match f.openResult with
  | .ok _ => true
  | .error _ => false

/-- Model of `os.path.basename` (and `pathlib`'s `.name`) on POSIX
paths: the component after the last slash. -/
def basename (p : String) : String :=
  String.mk ((p.data.reverse.takeWhile (fun c => c ≠ '/')).reverse)

/-- Metadata dict produced by GUI `PDFProcessor.get_metadata`
(research_agent_gui.py, lines 160-175): on success, title/author (with
`'Unknown'` defaults), page count, filename and path; on exception, an
error-marked entry with filename and path only. -/
structure PdfMeta where
  title : Option String
  author : Option String
  pages : Option Nat
  filename : String
  path : String
  error : Option String
deriving DecidableEq

/-- Model of `PDFProcessor.get_metadata`. -/
def get_metadata (f : PdfFile) : PdfMeta :=
  match f.openResult with
  | .ok d =>
    { title := some (d.metaTitle.getD "Unknown")
      author := some (d.metaAuthor.getD "Unknown")
      pages := some d.pages.length
      filename := basename f.path
      path := f.path
      error := none }
  | .error e =>
    { title := none
      author := none
      pages := none
      filename := basename f.path
      path := f.path
      error := some e }

/-- Model of CLI `extract_pdf_text` (research_agent_cli.py, lines
81-88): join the first `min(len(doc), max_pages)` page texts with blank
lines; any exception becomes the in-band string
`"Error reading PDF: ..."`. -/
def extract_pdf_text (f : PdfFile) (maxPages : Nat) : List Char :=
  match f.openResult with
  | .ok d => joinSep "\n\n".data (d.pages.take (min d.pages.length maxPages))
  | .error e => "Error reading PDF: ".data ++ e.data

/-- The metadata entries the GUI folder scan produces, one per
discovered file, in glob order (research_agent_gui.py, lines 492-498). -/
def loadEntriesGUI (files : List PdfFile) : List PdfMeta :=
  files.map get_metadata

/-- CLI per-paper metadata dict (research_agent_cli.py, line 153). -/
structure MetaCLI where
  filename : String
  path : String
deriving DecidableEq

/-- CLI session state touched by the `folder` command. -/
structure SessionCLI where
  papers_folder : String
  loaded_papers : List (String × MetaCLI)

/-- Model of the CLI `folder` command body on a valid directory
(research_agent_cli.py, lines 148-154): reset `loaded_papers` to a fresh
dict and fill it from the glob result. -/
def folderCmdCLI (st : SessionCLI) (folder : String) (pdfs : List PdfFile) : SessionCLI :=
  { papers_folder := folder
    loaded_papers :=
      buildDict (pdfs.map (fun f => (f.path, { filename := basename f.path, path := f.path }))) }

/-- GUI session state touched by `load_folder`. -/
structure SessionGUI where
  papers_folder : String
  loaded_papers : List (String × PdfMeta)

/-- Model of `ResearchAgentGUI.load_folder` on a valid directory
(research_agent_gui.py, lines 488-498): reset `loaded_papers` to a fresh
dict and fill it with one `get_metadata` entry per globbed file. -/
def load_folder (st : SessionGUI) (folder : String) (pdfs : List PdfFile) : SessionGUI :=
  { papers_folder := folder
    loaded_papers := buildDict (pdfs.map (fun f => (f.path, get_metadata f))) }

/-- Demo folder contents for concrete instantiations: one extractable
PDF and one corrupt PDF. -/
def demoGoodPdf : PdfFile :=
  { path := "/papers/a.pdf"
    openResult := .ok { metaTitle := some "T", metaAuthor := none, pages := ["page one".data] } }

/-- Demo corrupt PDF: `fitz.open` raises. -/
def demoBadPdf : PdfFile :=
  { path := "/papers/b.pdf", openResult := .error "cannot open" }

/-- Demo loaded-document list with eleven entries (above the analyze
cap). -/
def demoDocs : List LoadedDoc :=
  List.replicate 11 { filename := "p.pdf".data, text := "t".data }

theorem reSearch_eq_span : ∀ cs : List Char, reSearch cs = spanFirstOpenToLastClose cs := by
  intro cs
  induction cs with
  | nil => rfl
  | cons c rest ih =>
    by_cases hc : c = '['
    · subst hc
      cases hl : lastClose? rest with
      | none =>
        have hspec : spanFirstOpenToLastClose ('[' :: rest) = none := by
          simp [spanFirstOpenToLastClose, firstOpen?, lastClose?, hl]
        have hrest : spanFirstOpenToLastClose rest = none := by
          unfold spanFirstOpenToLastClose
          cases ho : firstOpen? rest <;> simp [hl]
        simp only [reSearch, matchAt, if_pos rfl, hl]
        simp [ih, hrest, hspec]
      | some j =>
        have hspec : spanFirstOpenToLastClose ('[' :: rest) =
            some ('[' :: rest.take (j + 1)) := by
          simp [spanFirstOpenToLastClose, firstOpen?, lastClose?, hl]
        simp only [reSearch, matchAt, if_pos rfl, hl]
        simp [hspec]
    · have hmatch : matchAt (c :: rest) = none := by
        simp [matchAt, hc]
      have hstep : spanFirstOpenToLastClose (c :: rest) = spanFirstOpenToLastClose rest := by
        cases ho : firstOpen? rest with
        | none =>
          unfold spanFirstOpenToLastClose
          simp [firstOpen?, hc, ho]
        | some i =>
          cases hl : lastClose? rest with
          | some j =>
            unfold spanFirstOpenToLastClose
            simp only [firstOpen?, if_neg hc, ho, Option.map_some', lastClose?, hl]
            by_cases hij : i < j
            · have : i + 1 < j + 1 := by omega
              simp only [if_pos hij, if_pos this, List.drop_succ_cons]
              have : j + 1 + 1 - (i + 1) = j + 1 - i := by omega
              rw [this]
            · have : ¬ (i + 1 < j + 1) := by omega
              simp [if_neg hij, if_neg this]
          | none =>
            unfold spanFirstOpenToLastClose
            by_cases hcc : c = ']'
            · simp only [firstOpen?, if_neg hc, ho, Option.map_some', lastClose?, hl, if_pos hcc]
              have : ¬ (i + 1 < 0) := by omega
              simp [this]
            · simp [firstOpen?, hc, ho, lastClose?, hl, hcc]
      simp only [reSearch, hmatch]
      rw [ih, hstep]

theorem lastClose?_append_some (l1 l2 : List Char) (j : Nat)
    (h2 : lastClose? l2 = some j) :
    lastClose? (l1 ++ l2) = some (l1.length + j) := by
  induction l1 with
  | nil => simpa using h2
  | cons c rest ih =>
    show (match lastClose? (rest ++ l2) with
          | some j => some (j + 1)
          | none => if c = ']' then some 0 else none) = _
    rw [ih]
    show some (rest.length + j + 1) = some ((c :: rest).length + j)
    simp only [List.length_cons, Option.some.injEq]
    omega

theorem lastClose?_append_none (l1 l2 : List Char) (h2 : lastClose? l2 = none) :
    lastClose? (l1 ++ l2) = lastClose? l1 := by
  induction l1 with
  | nil => simpa using h2
  | cons c rest ih =>
    show (match lastClose? (rest ++ l2) with
          | some j => some (j + 1)
          | none => if c = ']' then some 0 else none) = _
    rw [ih]
    rfl

theorem firstOpen?_append_none (l1 l2 : List Char) (h1 : firstOpen? l1 = none) :
    firstOpen? (l1 ++ l2) = (firstOpen? l2).map (· + l1.length) := by
  induction l1 with
  | nil => cases h : firstOpen? l2 <;> simp [h]
  | cons c rest ih =>
    by_cases hc : c = '['
    · rw [show firstOpen? (c :: rest) = some 0 by simp [firstOpen?, hc]] at h1
      exact absurd h1 (by simp)
    · have hro : firstOpen? rest = none := by
        by_contra hne
        cases ho : firstOpen? rest with
        | none => exact hne ho
        | some i =>
          rw [show firstOpen? (c :: rest) = some (i + 1) by simp [firstOpen?, hc, ho]] at h1
          exact absurd h1 (by simp)
      show (if c = '[' then some 0 else (firstOpen? (rest ++ l2)).map (· + 1)) = _
      rw [if_neg hc, ih hro]
      cases h : firstOpen? l2 with
      | none => rfl
      | some i =>
        show some (i + rest.length + 1) = some (i + (c :: rest).length)
        simp only [List.length_cons, Option.some.injEq]
        omega

theorem firstOpen?_eq_none (l : List Char) (h : '[' ∉ l) : firstOpen? l = none := by
  induction l with
  | nil => rfl
  | cons c rest ih =>
    have hc : ¬ (c = '[') := by
      intro hce
      exact h (by rw [hce]; exact List.mem_cons_self _ _)
    have hr : '[' ∉ rest := fun hm => h (List.mem_cons_of_mem c hm)
    simp [firstOpen?, hc, ih hr]

theorem lastClose?_eq_none (l : List Char) (h : ']' ∉ l) : lastClose? l = none := by
  induction l with
  | nil => rfl
  | cons c rest ih =>
    have hc : ¬ (c = ']') := by
      intro hce
      exact h (by rw [hce]; exact List.mem_cons_self _ _)
    have hr : ']' ∉ rest := fun hm => h (List.mem_cons_of_mem c hm)
    show (match lastClose? rest with
          | some j => some (j + 1)
          | none => if c = ']' then some 0 else none) = none
    rw [ih hr]
    simp [hc]

theorem lastClose?_of_getLast (l : List Char) (h : l.getLast? = some ']') :
    lastClose? l = some (l.length - 1) := by
  induction l with
  | nil => simp at h
  | cons c rest ih =>
    cases rest with
    | nil =>
      simp only [List.getLast?_singleton, Option.some.injEq] at h
      simp [lastClose?, h]
    | cons d t =>
      have h' : (d :: t).getLast? = some ']' := by
        rw [List.getLast?_cons_cons] at h
        exact h
      have ihh := ih h'
      show (match lastClose? (d :: t) with
            | some j => some (j + 1)
            | none => if c = ']' then some 0 else none) = _
      rw [ihh]
      show some ((d :: t).length - 1 + 1) = some ((c :: d :: t).length - 1)
      simp only [List.length_cons, Option.some.injEq]
      omega

theorem length_two_le (arr : List Char) (h1 : arr.head? = some '[')
    (h2 : arr.getLast? = some ']') : 2 ≤ arr.length := by
  cases arr with
  | nil => simp at h1
  | cons c rest =>
    cases rest with
    | nil =>
      simp only [List.head?_cons, Option.some.injEq] at h1
      simp only [List.getLast?_singleton, Option.some.injEq] at h2
      rw [h1] at h2
      simp at h2
    | cons d t => simp [List.length_cons]

/-- When a bracket-delimited array text `arr` is embedded in prose that
carries no `'['` before it and no `']'` after it, the regex picks out
exactly `arr`. -/
theorem reSearch_embed (pre arr post : List Char)
    (hpre : '[' ∉ pre) (hpost : ']' ∉ post)
    (hhead : arr.head? = some '[') (hlast : arr.getLast? = some ']') :
    reSearch (pre ++ arr ++ post) = some arr := by
  have hlen : 2 ≤ arr.length := length_two_le arr hhead hlast
  rw [reSearch_eq_span]
  have hfo_ap : firstOpen? (arr ++ post) = some 0 := by
    cases arr with
    | nil => simp at hhead
    | cons c rest =>
      simp only [List.head?_cons, Option.some.injEq] at hhead
      simp [firstOpen?, hhead]
  have hfo : firstOpen? (pre ++ (arr ++ post)) = some pre.length := by
    rw [firstOpen?_append_none pre (arr ++ post) (firstOpen?_eq_none pre hpre), hfo_ap]
    simp
  have hlc_arr : lastClose? arr = some (arr.length - 1) := lastClose?_of_getLast arr hlast
  have hlc_ap : lastClose? (arr ++ post) = some (arr.length - 1) := by
    rw [lastClose?_append_none arr post (lastClose?_eq_none post hpost), hlc_arr]
  have hlc : lastClose? (pre ++ (arr ++ post)) = some (pre.length + (arr.length - 1)) :=
    lastClose?_append_some pre (arr ++ post) (arr.length - 1) hlc_ap
  have hassoc : pre ++ arr ++ post = pre ++ (arr ++ post) := List.append_assoc pre arr post
  rw [hassoc]
  unfold spanFirstOpenToLastClose
  simp only [hfo, hlc]
  have hij : pre.length < pre.length + (arr.length - 1) := by omega
  rw [if_pos hij]
  have hdrop : (pre ++ (arr ++ post)).drop pre.length = arr ++ post :=
    List.drop_left pre (arr ++ post)
  have harith : pre.length + (arr.length - 1) + 1 - pre.length = arr.length := by omega
  rw [hdrop, harith, List.take_left arr post]

theorem jget_of_hasKey_eq_false (p : Json) (k : String) (dflt : Json)
    (h : hasKey p k = false) : jget p k dflt = dflt := by
  cases p with
  | obj kvs =>
    simp only [hasKey] at h
    have hnone : kvs.find? (fun kv => kv.1 = k) = none := by
      cases hf : kvs.find? (fun kv => kv.1 = k) with
      | none => rfl
      | some kv =>
        have hp := List.find?_some hf
        have hm := List.mem_of_find?_eq_some hf
        have hany : kvs.any (fun kv => kv.1 = k) = true :=
          List.any_eq_true.mpr ⟨kv, hm, hp⟩
        rw [hany] at h
        cases h
    simp [jget, hnone]
  | null => rfl
  | bool b => rfl
  | num n => rfl
  | str s => rfl
  | arr xs => rfl

theorem error_isNone_eq_extractOk (f : PdfFile) :
    (get_metadata f).error.isNone = extractOk f := by
  cases h : f.openResult <;> simp [get_metadata, extractOk, h]

theorem scan_filter_lengths (files : List PdfFile) :
    ((files.map get_metadata).filter (fun m => m.error.isNone)).length =
        (files.filter (fun f => extractOk f)).length ∧
    ((files.map get_metadata).filter (fun m => m.error.isSome)).length =
        (files.filter (fun f => !extractOk f)).length := by
  induction files with
  | nil => exact ⟨rfl, rfl⟩
  | cons f rest ih =>
    have hne := error_isNone_eq_extractOk f
    cases hok : extractOk f with
    | true =>
      rw [hok] at hne
      have hsome : (get_metadata f).error.isSome = false := by
        cases h : (get_metadata f).error <;> simp [h] at hne ⊢
      constructor
      · simp [List.map_cons, List.filter_cons, hne, hok, ih.1]
      · simp [List.map_cons, List.filter_cons, hsome, hok, ih.2]
    | false =>
      rw [hok] at hne
      have hsome : (get_metadata f).error.isSome = true := by
        cases h : (get_metadata f).error <;> simp [h] at hne ⊢
      constructor
      · simp [List.map_cons, List.filter_cons, hne, hok, ih.1]
      · simp [List.map_cons, List.filter_cons, hsome, hok, ih.2]

theorem keys_dinsert {α : Type} (d : List (String × α)) (k : String) (v : α) :
    (dinsert d k v).map Prod.fst =
      if d.any (fun kv => kv.1 = k) then d.map Prod.fst
      else d.map Prod.fst ++ [k] := by
  unfold dinsert
  by_cases h : d.any (fun kv => kv.1 = k) = true
  · rw [if_pos h, if_pos h, List.map_map]
    apply List.map_congr_left
    intro kv _
    by_cases hk : kv.1 = k
    · simp [hk]
    · simp [hk]
  · rw [if_neg h, if_neg h]
    simp

theorem nodup_keys_dinsert {α : Type} (d : List (String × α)) (k : String) (v : α)
    (h : (d.map Prod.fst).Nodup) : ((dinsert d k v).map Prod.fst).Nodup := by
  rw [keys_dinsert]
  by_cases hany : d.any (fun kv => kv.1 = k) = true
  · rw [if_pos hany]
    exact h
  · rw [if_neg hany]
    have hk : k ∉ d.map Prod.fst := by
      intro hmem
      rcases List.mem_map.mp hmem with ⟨kv, hkv, hfst⟩
      exact hany (List.any_eq_true.mpr ⟨kv, hkv, by simp [hfst]⟩)
    rw [List.nodup_append]
    refine ⟨h, List.nodup_singleton k, ?_⟩
    intro a ha hmem
    rcases List.mem_singleton.mp hmem with rfl
    exact hk ha

theorem nodup_keys_foldl_dinsert {α : Type} (items : List (String × α))
    (d : List (String × α)) (h : (d.map Prod.fst).Nodup) :
    (((items.foldl (fun d kv => dinsert d kv.1 kv.2) d)).map Prod.fst).Nodup := by
  induction items generalizing d with
  | nil => exact h
  | cons kv rest ih =>
    exact ih (dinsert d kv.1 kv.2) (nodup_keys_dinsert d kv.1 kv.2 h)

theorem nodup_keys_buildDict {α : Type} (items : List (String × α)) :
    ((buildDict items).map Prod.fst).Nodup :=
  nodup_keys_foldl_dinsert items [] List.nodup_nil

/-! Claim theorems. -/

/-- C1: for every prompt/message list and every exception raised by the
underlying SDK call (both oracles fail with arbitrary messages), `chat`
in both front ends catches the exception and returns a string beginning
with `"Error: "` instead of raising, and the client state — in
particular its readiness — is returned unchanged. -/
theorem c1_chat_never_raises :
    ∀ (c : AIClient) (cCLI : AIClientCLI) (messages : List Message) (prompt : String)
      (w : Bool) (e1 e2 : String),
      (∃ t, (AIClient.chat c messages w (fun _ => .error e1) (fun _ => .error e2)).1 =
              "Error: " ++ t) ∧
      (AIClient.chat c messages w (fun _ => .error e1) (fun _ => .error e2)).2 = c ∧
      (∃ t, (chatCLI cCLI prompt w (fun _ => .error e1) (fun _ => .error e2)).1 =
              "Error: " ++ t) ∧
      (chatCLI cCLI prompt w (fun _ => .error e1) (fun _ => .error e2)).2 = cCLI := by
  intro c cCLI messages prompt w e1 e2
  refine ⟨?_, ?_, ?_, ?_⟩
  · unfold AIClient.chat
    by_cases hr : c.is_ready = false
    · rw [if_pos hr]
      refine ⟨"API client not initialized. Please check your API key.", ?_⟩
      show ("Error: API client not initialized. Please check your API key." : String) = _
      decide
    · rw [if_neg hr]
      by_cases h1 : c.provider = "claude"
      · rw [if_pos h1]
        exact ⟨e1, rfl⟩
      · rw [if_neg h1]
        by_cases h2 : c.provider = "chatgpt"
        · rw [if_pos h2]
          exact ⟨e2, rfl⟩
        · rw [if_neg h2]
          refine ⟨"Unknown provider " ++ c.provider, ?_⟩
          show "Error: Unknown provider " ++ c.provider =
            "Error: " ++ ("Unknown provider " ++ c.provider)
          have hlit : ("Error: " ++ "Unknown provider " : String) =
              "Error: Unknown provider " := by decide
          rw [← String.append_assoc, hlit]
  · unfold AIClient.chat
    by_cases hr : c.is_ready = false
    · rw [if_pos hr]
    · rw [if_neg hr]
      by_cases h1 : c.provider = "claude"
      · rw [if_pos h1]
      · rw [if_neg h1]
        by_cases h2 : c.provider = "chatgpt"
        · rw [if_pos h2]
        · rw [if_neg h2]
  · unfold chatCLI
    by_cases h1 : c.provider = "claude"
    · by_cases h1' : cCLI.provider = "claude"
      · rw [if_pos h1']
        exact ⟨e1, rfl⟩
      · rw [if_neg h1']
        exact ⟨e2, rfl⟩
    · by_cases h1' : cCLI.provider = "claude"
      · rw [if_pos h1']
        exact ⟨e1, rfl⟩
      · rw [if_neg h1']
        exact ⟨e2, rfl⟩
  · unfold chatCLI
    by_cases h1' : cCLI.provider = "claude"
    · rw [if_pos h1']
    · rw [if_neg h1']

/-- C7: a freshly constructed GUI `AIClient` is ready exactly when the
credential is non-empty, the (lowercased) provider tag is one of the two
known backends, and the SDK constructor succeeded; `is_ready` holds
exactly when a backend handle exists; and a not-ready client's `chat`
returns the fixed `"Error: ..."` reply for every oracle, without
consulting a backend. -/
theorem c7_not_ready_until_configured :
    ∀ (provider api_key : String) (ctor : Except String Backend),
      ((AIClient.make provider api_key ctor).is_ready = true ↔
        (api_key ≠ "" ∧ (pyLower provider = "claude" ∨ pyLower provider = "chatgpt") ∧
          ∃ b, ctor = .ok b)) ∧
      (∀ c : AIClient, c.is_ready = true ↔ c.client.isSome = true) ∧
      (∀ (c : AIClient) (messages : List Message) (w : Bool)
        (claudeCall : ClaudeRequest → Except String ClaudeResponse)
        (gptCall : GptRequest → Except String GptResponse),
        c.is_ready = false →
        AIClient.chat c messages w claudeCall gptCall =
          ("Error: API client not initialized. Please check your API key.", c)) := by
  intro provider api_key ctor
  refine ⟨?_, fun c => Iff.rfl, ?_⟩
  · unfold AIClient.make initClient AIClient.is_ready
    by_cases hk : api_key = ""
    · simp [hk]
    · simp only [if_neg hk]
      by_cases h1 : pyLower provider = "claude"
      · simp only [h1, if_pos rfl]
        cases ctor with
        | ok b => simp [hk, h1]
        | error e => simp [hk, h1]
      · simp only [if_neg h1]
        by_cases h2 : pyLower provider = "chatgpt"
        · simp only [h2, if_pos rfl]
          cases ctor with
          | ok b => simp [hk, h1, h2]
          | error e => simp [hk, h1, h2]
        · simp [hk, h1, h2]
  · intro c messages w claudeCall gptCall h
    unfold AIClient.chat
    rw [if_pos h]

/-- C7 witness: concrete clients — ready only with a known provider tag
(case-insensitively), a non-empty key and a successful construction; a
not-ready client's `chat` returns the fixed error reply for arbitrary
oracles. -/
theorem c7_witness :
    (AIClient.make "Claude" "sk-key" (.ok .anthropic)).is_ready = true ∧
    (AIClient.make "claude" "" (.ok .anthropic)).is_ready = false ∧
    (AIClient.make "gemini" "sk-key" (.ok .anthropic)).is_ready = false ∧
    (AIClient.make "claude" "sk-key" (.error "boom")).is_ready = false ∧
    AIClient.chat (AIClient.make "claude" "" (.ok .anthropic)) [] false
        (fun _ => .ok { content := [] }) (fun _ => .error "network down") =
      ("Error: API client not initialized. Please check your API key.",
        AIClient.make "claude" "" (.ok .anthropic)) := by
  refine ⟨?_, ?_, ?_, ?_, ?_⟩
  · exact (c7_not_ready_until_configured "Claude" "sk-key" (.ok .anthropic)).1.mpr
      ⟨by decide, Or.inl (by decide), ⟨.anthropic, rfl⟩⟩
  · decide
  · decide
  · decide
  · exact (c7_not_ready_until_configured "claude" "" (.ok .anthropic)).2.2
      (AIClient.make "claude" "" (.ok .anthropic)) [] false _ _ (by decide)

/-- C9 (amended): both chatgpt backends use a fixed `max_tokens` of 4096
and return the first choice's message content, but only the GUI selects
the model by the web-search flag (`gpt-4o` when requested, `gpt-4o-mini`
otherwise); the CLI chatgpt branch always sends `gpt-4o` and ignores the
flag. -/
theorem c9_chatgpt_request_shape :
    ∀ (messages : List Message) (w : Bool) (key : String) (b : Backend)
      (prompt : String) (ch : GptChoice) (rest : List GptChoice)
      (claudeCall : ClaudeRequest → Except String ClaudeResponse),
      (gptRequestGUI messages w).max_tokens = 4096 ∧
      (gptRequestGUI messages w).model = (if w then "gpt-4o" else "gpt-4o-mini") ∧
      (gptRequestGUI messages w).messages = messages ∧
      (gptRequestCLI messages).max_tokens = 4096 ∧
      (gptRequestCLI messages).model = "gpt-4o" ∧
      formatMessages messages = messages ∧
      (AIClient.chat { provider := "chatgpt", api_key := key, client := some b }
          messages w claudeCall (fun _ => .ok { choices := ch :: rest })).1 =
        ch.message.content ∧
      (chatCLI { provider := "chatgpt", api_key := key } prompt w claudeCall
          (fun _ => .ok { choices := ch :: rest })).1 = ch.message.content := by
  intro messages w key b prompt ch rest claudeCall
  refine ⟨rfl, rfl, rfl, rfl, rfl, ?_, ?_, ?_⟩
  · show messages.map (fun m => { role := m.role, content := m.content }) = messages
    exact List.map_id messages
  · unfold AIClient.chat
    have hr : ({ provider := "chatgpt", api_key := key, client := some b } :
        AIClient).is_ready = true := rfl
    rw [hr]
    simp
  · unfold chatCLI
    simp

/-- C9 counterexample: with the web-search flag off, the CLI chatgpt
request still names the fuller model `gpt-4o`, not the lighter
`gpt-4o-mini` the claim requires; an oracle echoing the requested model
shows the flag-off chat call goes out with `gpt-4o`. -/
theorem c9_counterexample :
    (gptRequestCLI [{ role := "user", content := "q" }]).model = "gpt-4o" ∧
    (gptRequestCLI [{ role := "user", content := "q" }]).model ≠ "gpt-4o-mini" ∧
    (chatCLI { provider := "chatgpt", api_key := "k" } "q" false (fun _ => .error "x")
      (fun req => .ok { choices := [{ message := { content := req.model } }] })).1 =
      "gpt-4o" := by
  refine ⟨rfl, by decide, rfl⟩

/-- C10: the candidate JSON span the interpreter parses is exactly the
substring from the first `'['` of the reply to the last `']'` of the
reply (and exists exactly when the first `'['` precedes the last `']'`),
and the CLI interpreter parses that very span, falling back to the raw
reply unless the whole span is valid JSON. -/
theorem c10_greedy_span :
    (∀ cs : List Char, reSearch cs = spanFirstOpenToLastClose cs) ∧
    (∀ reply : List Char,
      interpretReplyCLI reply =
        match spanFirstOpenToLastClose reply with
        | some span =>
          match jsonLoads span with
          | some papers => InterpOutcome.parsed papers
          | none => InterpOutcome.raw reply
        | none => InterpOutcome.raw reply) := by
  refine ⟨reSearch_eq_span, ?_⟩
  intro reply
  unfold interpretReplyCLI
  rw [reSearch_eq_span]

/-- C4 (amended): a document text of length L is assembled unchanged
when L is at most the budget (40000 CLI analyze, 50000 GUI); over
budget, the budget-length prefix is kept and the marker is appended —
`"\n...[truncated]"` (15 characters) in the CLI, `"\n... [truncated]"`
(16 characters) in the GUI — so the assembled length is exactly budget
plus marker length, which exceeds the claimed bound of budget plus
`length("...[truncated]")` = budget + 14. -/
theorem c4_truncation_bounds :
    ∀ text : List Char,
      (text.length ≤ 40000 → truncAnalyzeCLI text = text) ∧
      (40000 < text.length →
        truncAnalyzeCLI text = text.take 40000 ++ cliTruncMarker ∧
        (truncAnalyzeCLI text).length = 40000 + cliTruncMarker.length ∧
        cliTruncMarker.length = 15) ∧
      (text.length ≤ 50000 → truncAnalyzeGUI text = text) ∧
      (50000 < text.length →
        truncAnalyzeGUI text = text.take 50000 ++ guiTruncMarker ∧
        (truncAnalyzeGUI text).length = 50000 + guiTruncMarker.length ∧
        guiTruncMarker.length = 16) := by
  intro text
  have hm1 : cliTruncMarker.length = 15 := by decide
  have hm2 : guiTruncMarker.length = 16 := by decide
  refine ⟨?_, ?_, ?_, ?_⟩
  · intro h
    unfold truncAnalyzeCLI
    rw [if_neg (by omega)]
  · intro h
    unfold truncAnalyzeCLI
    rw [if_pos h]
    refine ⟨rfl, ?_, hm1⟩
    rw [List.length_append, List.length_take]
    omega
  · intro h
    unfold truncAnalyzeGUI
    rw [if_neg (by omega)]
  · intro h
    unfold truncAnalyzeGUI
    rw [if_pos h]
    refine ⟨rfl, ?_, hm2⟩
    rw [List.length_append, List.length_take]
    omega

/-- C4 counterexample: a 40001-character document truncates to length
40015 = 40000 + 15 in the CLI analyze branch, strictly above the
claimed bound 40000 + length("...[truncated]") = 40014, because the
appended marker also carries a leading newline. -/
theorem c4_counterexample :
    40000 < (List.replicate 40001 'a').length ∧
    (truncAnalyzeCLI (List.replicate 40001 'a')).length = 40015 ∧
    ¬ ((truncAnalyzeCLI (List.replicate 40001 'a')).length ≤
        40000 + ("...[truncated]".data).length) := by
  have hrep : (List.replicate 40001 'a').length = 40001 := List.length_replicate _ _
  have h1 : 40000 < (List.replicate 40001 'a').length := by omega
  have hm : cliTruncMarker.length = 15 := by decide
  have hlen : (truncAnalyzeCLI (List.replicate 40001 'a')).length = 40015 := by
    unfold truncAnalyzeCLI
    rw [if_pos h1, List.length_append, List.length_take, hm, hrep]
    norm_num
  have hm14 : ("...[truncated]".data).length = 14 := by decide
  exact ⟨h1, hlen, by rw [hlen, hm14]; omega⟩

/-- C4 witness: concrete instantiations of both branches of the amended
truncation theorem. -/
theorem c4_witness :
    truncAnalyzeCLI "ab".data = "ab".data ∧
    (truncAnalyzeCLI (List.replicate 40001 'a')).length = 40000 + cliTruncMarker.length ∧
    truncAnalyzeGUI "ab".data = "ab".data ∧
    (truncAnalyzeGUI (List.replicate 50001 'a')).length = 50000 + guiTruncMarker.length := by
  refine ⟨(c4_truncation_bounds "ab".data).1 (by decide),
    ((c4_truncation_bounds (List.replicate 40001 'a')).2.1
      (by rw [List.length_replicate]; omega)).2.1,
    (c4_truncation_bounds "ab".data).2.2.1 (by decide),
    ((c4_truncation_bounds (List.replicate 50001 'a')).2.2.2
      (by rw [List.length_replicate]; omega)).2.1⟩

/-- C5: the analyze document list keeps at most the first 10 loaded
documents while the verify document list keeps every loaded document,
in both front ends; every assembled entry is a wrapped document carrying
its filename between the `=== ... ===` delimiter lines. -/
theorem c5_analyze_cap_verify_all :
    ∀ docs : List LoadedDoc,
      (analyzePapersTextsCLI docs).length = min 10 docs.length ∧
      (analyzePapersTextsCLI docs).length ≤ 10 ∧
      (verifyPapersTextsCLI docs).length = docs.length ∧
      (∀ d ∈ docs, wrapDoc d.filename (truncVerifyCLI d.text) ∈ verifyPapersTextsCLI docs) ∧
      (∀ s ∈ analyzePapersTextsCLI docs,
        ∃ d, d ∈ docs ∧ s = wrapDoc d.filename (truncAnalyzeCLI d.text)) ∧
      (analyzePapersTextsGUI docs).length = min 10 docs.length ∧
      (analyzePapersTextsGUI docs).length ≤ 10 ∧
      (verifyPapersTextsGUI docs).length = docs.length ∧
      (∀ d ∈ docs, wrapDoc d.filename (truncVerifyGUI d.text) ∈ verifyPapersTextsGUI docs) ∧
      (∀ s ∈ analyzePapersTextsGUI docs,
        ∃ d, d ∈ docs ∧ s = wrapDoc d.filename (truncAnalyzeGUI d.text)) := by
  intro docs
  refine ⟨?_, ?_, ?_, ?_, ?_, ?_, ?_, ?_, ?_, ?_⟩
  · show ((docs.take 10).map _).length = min 10 docs.length
    rw [List.length_map, List.length_take]
  · show ((docs.take 10).map _).length ≤ 10
    rw [List.length_map, List.length_take]
    exact min_le_left _ _
  · exact List.length_map _ _
  · intro d hd
    exact List.mem_map_of_mem _ hd
  · intro s hs
    rcases List.mem_map.mp hs with ⟨d, hd, rfl⟩
    exact ⟨d, List.take_subset 10 docs hd, rfl⟩
  · show ((docs.take 10).map _).length = min 10 docs.length
    rw [List.length_map, List.length_take]
  · show ((docs.take 10).map _).length ≤ 10
    rw [List.length_map, List.length_take]
    exact min_le_left _ _
  · exact List.length_map _ _
  · intro d hd
    exact List.mem_map_of_mem _ hd
  · intro s hs
    rcases List.mem_map.mp hs with ⟨d, hd, rfl⟩
    exact ⟨d, List.take_subset 10 docs hd, rfl⟩

/-- C5 witness: with eleven loaded documents, analyze assembles exactly
10 entries and verify assembles all 11; a concrete wrapped document is
among the verify entries. -/
theorem c5_witness :
    (analyzePapersTextsCLI demoDocs).length = 10 ∧
    (verifyPapersTextsCLI demoDocs).length = 11 ∧
    wrapDoc "p.pdf".data (truncVerifyCLI "t".data) ∈ verifyPapersTextsCLI demoDocs ∧
    (analyzePapersTextsGUI demoDocs).length = 10 ∧
    (verifyPapersTextsGUI demoDocs).length = 11 := by
  obtain ⟨a1, a2, a3, a4, a5, b1, b2, b3, b4, b5⟩ := c5_analyze_cap_verify_all demoDocs
  refine ⟨?_, ?_, ?_, ?_, ?_⟩
  · rw [a1]; decide
  · rw [a3]; decide
  · exact a4 { filename := "p.pdf".data, text := "t".data } (by decide)
  · rw [b1]; decide
  · rw [b3]; decide

/-- C6: a folder scan yields one entry per discovered file — the number
of usable (error-free) entries equals the number of extractable files
and each corrupt file yields an error-marked entry in the scan result
rather than a raised fault; CLI text extraction likewise converts an
open failure into an in-band `"Error reading PDF: ..."` string. -/
theorem c6_scan_fault_isolation :
    ∀ files : List PdfFile,
      (loadEntriesGUI files).length = files.length ∧
      ((loadEntriesGUI files).filter (fun m => m.error.isNone)).length =
        (files.filter (fun f => extractOk f)).length ∧
      ((loadEntriesGUI files).filter (fun m => m.error.isSome)).length =
        (files.filter (fun f => !extractOk f)).length ∧
      (∀ f ∈ files, extractOk f = false →
        (get_metadata f).error.isSome = true ∧ get_metadata f ∈ loadEntriesGUI files) ∧
      (∀ (f : PdfFile) (e : String), f.openResult = .error e →
        extract_pdf_text f 30 = "Error reading PDF: ".data ++ e.data) := by
  intro files
  refine ⟨List.length_map _ _, (scan_filter_lengths files).1, (scan_filter_lengths files).2,
    ?_, ?_⟩
  · intro f hf hbad
    constructor
    · cases ho : f.openResult with
      | ok d =>
        unfold extractOk at hbad
        rw [ho] at hbad
        cases hbad
      | error e => simp [get_metadata, ho]
    · exact List.mem_map_of_mem _ hf
  · intro f e he
    unfold extract_pdf_text
    rw [he]

/-- C6 witness: a two-file folder with one extractable and one corrupt
PDF scans to two entries; the corrupt file is error-marked and its CLI
extraction is the in-band error string. -/
theorem c6_witness :
    (loadEntriesGUI [demoGoodPdf, demoBadPdf]).length = 2 ∧
    (get_metadata demoBadPdf).error.isSome = true ∧
    ((loadEntriesGUI [demoGoodPdf, demoBadPdf]).filter
        (fun m => m.error.isNone)).length = 1 ∧
    extract_pdf_text demoBadPdf 30 = "Error reading PDF: cannot open".data := by
  obtain ⟨h1, h2, h3, h4, h5⟩ := c6_scan_fault_isolation [demoGoodPdf, demoBadPdf]
  refine ⟨h1, (h4 demoBadPdf (by decide) (by decide)).1, ?_, ?_⟩
  · rw [h2]; decide
  · exact h5 demoBadPdf "cannot open" rfl

/-- C8: re-scanning a folder rebuilds the loaded-document mapping from
the fresh glob result alone — the result is independent of whatever was
loaded before (unconditional discard, no merge) — and the rebuilt
mapping holds at most one entry per file path. -/
theorem c8_reload_discards_and_unique_paths :
    ∀ (st st' : SessionGUI) (stc stc' : SessionCLI) (folder : String) (pdfs : List PdfFile),
      (load_folder st folder pdfs).loaded_papers = (load_folder st' folder pdfs).loaded_papers ∧
      (folderCmdCLI stc folder pdfs).loaded_papers =
        (folderCmdCLI stc' folder pdfs).loaded_papers ∧
      ((load_folder st folder pdfs).loaded_papers.map Prod.fst).Nodup ∧
      ((folderCmdCLI stc folder pdfs).loaded_papers.map Prod.fst).Nodup := by
  intro st st' stc stc' folder pdfs
  exact ⟨rfl, rfl, nodup_keys_buildDict _, nodup_keys_buildDict _⟩

/-- C2 (amended): when no bracket span is found, or the found span fails
to parse, the CLI prints the raw reply unchanged; the GUI instead
prefixes the raw reply with a `"Could not parse results."` banner in the
no-span case and surfaces a distinct `"Error: ..."` string (the decoder
message) in the parse-failure case. -/
theorem c2_interpreter_fallback :
    ∀ (reply pem : List Char),
      (reSearch reply = none → interpretReplyCLI reply = .raw reply) ∧
      (∀ span, reSearch reply = some span → jsonLoads span = none →
        interpretReplyCLI reply = .raw reply) ∧
      (reSearch reply = none →
        findPapersResultGUI reply pem =
          .text ("Could not parse results. Raw response:\n\n".data ++ reply)) ∧
      (∀ span, reSearch reply = some span → jsonLoads span = none →
        findPapersResultGUI reply pem = .text ("Error: ".data ++ pem)) := by
  intro reply pem
  refine ⟨?_, ?_, ?_, ?_⟩
  · intro h
    unfold interpretReplyCLI
    rw [h]
  · intro span hs hj
    unfold interpretReplyCLI
    simp only [hs, hj]
  · intro h
    unfold findPapersResultGUI
    rw [h]
  · intro span hs hj
    unfold findPapersResultGUI
    simp only [hs, hj]

/-- C2 counterexample: on a reply with no bracket span the GUI display
is the raw reply behind a banner, not the reply byte-for-byte, so the
claim fails for the GUI interpretation path. -/
theorem c2_counterexample :
    findPapersResultGUI "hello".data "msg".data =
      .text ("Could not parse results. Raw response:\n\nhello".data) ∧
    "Could not parse results. Raw response:\n\nhello".data ≠ "hello".data := by
  exact ⟨rfl, by decide⟩

/-- C2 witness: concrete no-span and parse-failure replies for both
front ends. -/
theorem c2_witness :
    interpretReplyCLI "no brackets here".data = .raw "no brackets here".data ∧
    interpretReplyCLI "[nope]".data = .raw "[nope]".data ∧
    findPapersResultGUI "[nope]".data "bad".data = .text "Error: bad".data := by
  refine ⟨(c2_interpreter_fallback "no brackets here".data []).1 (by rfl),
    (c2_interpreter_fallback "[nope]".data []).2.1 "[nope]".data (by rfl) (by rfl),
    (c2_interpreter_fallback "[nope]".data "bad".data).2.2.2 "[nope]".data (by rfl) (by rfl)⟩

/-- C3 (amended): a well-formed JSON array embedded in surrounding prose
is recovered verbatim — same array, hence same length and field values —
provided the prose holds no `'['` before the array and no `']'` after it
(arbitrary prose can widen the greedy span and break the parse, see the
counterexample); missing optional fields of each record read back as the
documented defaults instead of failing the record (CLI: authors `[]`,
year `'?'`, summary/relevance/link `''`, title `'Unknown'`; GUI: authors
`[]`, year `'Unknown'`, summary/relevance `'N/A'`, link absent). -/
theorem c3_embedded_array_roundtrip :
    ∀ (pre arr post : List Char) (items : List Json) (pem : List Char),
      '[' ∉ pre → ']' ∉ post →
      arr.head? = some '[' → arr.getLast? = some ']' →
      jsonLoads arr = some (Json.arr items) →
      interpretReplyCLI (pre ++ arr ++ post) = .parsed (Json.arr items) ∧
      findPapersResultGUI (pre ++ arr ++ post) pem = .formatted (Json.arr items) ∧
      (∀ p ∈ items,
        (hasKey p "title" = false → (displayPaperCLI p).title = .str "Unknown" ∧
          (displayPaperGUI p).title = .str "Unknown") ∧
        (hasKey p "authors" = false → (displayPaperCLI p).authors = .arr [] ∧
          (displayPaperGUI p).authors = .arr []) ∧
        (hasKey p "year" = false → (displayPaperCLI p).year = .str "?" ∧
          (displayPaperGUI p).year = .str "Unknown") ∧
        (hasKey p "summary" = false → (displayPaperCLI p).summary = .str "" ∧
          (displayPaperGUI p).summary = .str "N/A") ∧
        (hasKey p "relevance" = false → (displayPaperCLI p).relevance = .str "" ∧
          (displayPaperGUI p).relevance = .str "N/A") ∧
        (hasKey p "link" = false → (displayPaperCLI p).link = .str "" ∧
          (displayPaperGUI p).link = .null)) := by
  intro pre arr post items pem hpre hpost hhead hlast hjson
  have hspan := reSearch_embed pre arr post hpre hpost hhead hlast
  refine ⟨?_, ?_, ?_⟩
  · unfold interpretReplyCLI
    simp only [hspan, hjson]
  · unfold findPapersResultGUI
    simp only [hspan, hjson]
  · intro p hp
    refine ⟨fun hk => ⟨?_, ?_⟩, fun hk => ⟨?_, ?_⟩, fun hk => ⟨?_, ?_⟩,
      fun hk => ⟨?_, ?_⟩, fun hk => ⟨?_, ?_⟩, fun hk => ⟨?_, ?_⟩⟩ <;>
      exact jget_of_hasKey_eq_false p _ _ hk

/-- C3 counterexample: the same well-formed one-record array followed by
prose that contains a `']'` is not recovered — the greedy span swallows
the prose, the parse fails, and the CLI falls back to the raw reply — so
recovery does not hold for arbitrary surrounding prose. -/
theorem c3_counterexample :
    jsonLoads "[\x7b\"title\":\"A\"\x7d]".data =
      some (.arr [.obj [("title", .str "A")]]) ∧
    interpretReplyCLI "[\x7b\"title\":\"A\"\x7d] see ref]".data =
      .raw "[\x7b\"title\":\"A\"\x7d] see ref]".data := by
  exact ⟨rfl, rfl⟩

/-- C3 witness: the end-to-end scenario of the spec — intro text, a
one-record array with title, authors and year, trailing prose — parses
to exactly that record, and the missing optional fields read back as the
documented defaults. -/
theorem c3_witness :
    interpretReplyCLI ("Some intro text\n".data ++
        "[\x7b\"title\":\"A\",\"authors\":[\"X\",\"Y\"],\"year\":2020\x7d]".data ++
        "\ntrailing".data) =
      .parsed (Json.arr [Json.obj [("title", Json.str "A"),
        ("authors", Json.arr [Json.str "X", Json.str "Y"]),
        ("year", Json.num 2020)]]) ∧
    (displayPaperCLI (Json.obj [("title", Json.str "A"),
        ("authors", Json.arr [Json.str "X", Json.str "Y"]),
        ("year", Json.num 2020)])).title = Json.str "A" ∧
    (displayPaperCLI (Json.obj [("title", Json.str "A"),
        ("authors", Json.arr [Json.str "X", Json.str "Y"]),
        ("year", Json.num 2020)])).summary = Json.str "" ∧
    (displayPaperCLI (Json.obj [("title", Json.str "A"),
        ("authors", Json.arr [Json.str "X", Json.str "Y"]),
        ("year", Json.num 2020)])).link = Json.str "" ∧
    (displayPaperGUI (Json.obj [("title", Json.str "A"),
        ("authors", Json.arr [Json.str "X", Json.str "Y"]),
        ("year", Json.num 2020)])).summary = Json.str "N/A" := by
  refine ⟨(c3_embedded_array_roundtrip "Some intro text\n".data
      "[\x7b\"title\":\"A\",\"authors\":[\"X\",\"Y\"],\"year\":2020\x7d]".data
      "\ntrailing".data
      [Json.obj [("title", Json.str "A"),
        ("authors", Json.arr [Json.str "X", Json.str "Y"]),
        ("year", Json.num 2020)]] []
      (by decide) (by decide) rfl (by decide) (by rfl)).1,
    rfl, rfl, rfl, rfl⟩

end RA
